import Mathlib

/-!
Shallow embedding of the Mountaintops bridge UI
(`src/frontend/src/App.tsx`) for verification of its natural-language
specification.  External collaborators (the BSV wallet SDK client, the
block-explorer HTTP API, browser `fetch`) are modelled as explicit
environment records whose operations return `Except String` values: an
`Except.error e` stands for a thrown JS exception carrying message `e`.
JS numbers handled by the app are integer satoshi counts and their exact
decimal quotients, so they are modelled as `ℤ` and `ℚ`.  Every externally
observable call the code issues is recorded in a chronological event
trace, so that claims of the form "no wallet call is made" or "abort is
called exactly once" are provable statements about the trace.
-/

namespace Mountaintops

/-- The wallet network, as returned by the client getNetwork call. -/
inductive Network where
  | mainnet
  | testnet
deriving DecidableEq, Repr

/-- Network path segment used by `fetchBSVBalance`: the segment is main
when the wallet network is mainnet and test otherwise. -/
def wocNetBalance : Network → String
  | .mainnet => "main"
  | .testnet => "test"

/-- Network path segment used by `handleImportFunds`: the segment is test
when the wallet network is testnet and main otherwise (the same selection
as `wocNetBalance`, written with the branches flipped in the source). -/
def wocNetImport : Network → String
  | .testnet => "test"
  | .mainnet => "main"

/-- URL of the block-explorer balance endpoint built by `fetchBSVBalance`. -/
def balanceUrl (n : Network) (address : String) : String :=
  "https://api.whatsonchain.com/v1/bsv/" ++ wocNetBalance n ++
    "/address/" ++ address ++ "/balance"

/-- URL of the block-explorer unspent-outputs endpoint built by
`handleImportFunds`. -/
def unspentUrl (n : Network) (address : String) : String :=
  "https://api.whatsonchain.com/v1/bsv/" ++ wocNetImport n ++
    "/address/" ++ address ++ "/unspent"

/-- The JSON body returned by the balance endpoint: integer satoshi
fields `confirmed` and `unconfirmed`. -/
structure BalancePayload where
  confirmed : ℤ
  unconfirmed : ℤ
deriving DecidableEq, Repr

/-- Result of one `fetchBSVBalance` call: the returned number and the
list of HTTP GET requests issued during the call. -/
structure FetchBalanceResult where
  value : ℚ
  httpGets : List String
deriving Repr

/-- Model of `fetchBSVBalance` from `App.tsx`: resolves the wallet network, issues
one GET to the balance endpoint for that network, parses the JSON body
and returns `(confirmed + unconfirmed) / 100000000`.  The network and the
response payload are supplied by the environment (wallet and explorer). -/
def fetchBSVBalance (network : Network) (payload : BalancePayload)
    (address : String) : FetchBalanceResult :=
  { value := ((payload.confirmed + payload.unconfirmed : ℤ) : ℚ) / 100000000
    httpGets := [balanceUrl network address] }

/-- JS `Math.round` on the exact rational value: round half toward
positive infinity, `⌊x + 1/2⌋`. -/
def jsRound (q : ℚ) : ℤ := ⌊q + 1 / 2⌋

/-- One output of a wallet `createAction` request, as built by `sendBSV`. -/
structure ActionOutput where
  lockingScript : String
  satoshis : ℤ
  outputDescription : String
deriving DecidableEq, Repr

/-- Argument record of the `client.createAction` call issued by
`sendBSV`. -/
structure CreateSendArgs where
  description : String
  outputs : List ActionOutput
deriving DecidableEq, Repr

/-- Environment of the send path: the wallet network, the SDK
`new P2PKH().lock(to).toHex()` locking-script builder (external SDK code,
modelled as an arbitrary function of the address), and the wallet
`createAction` operation returning a txid or throwing. -/
structure SendEnv where
  network : Network
  lockScript : String → String
  createAction : CreateSendArgs → Except String String

/-- Observable outcome of `sendBSV`. -/
inductive SendOutcome where
  /-- The mainnet address-prefix check failed: alert shown, `undefined`
  returned, no wallet call. -/
  | rejectedNetwork
  /-- The wallet call succeeded and returned this txid. -/
  | sent (txid : String)
  /-- The wallet call threw; the exception propagates to the caller. -/
  | threw (e : String)
deriving DecidableEq, Repr

/-- JS `String.prototype.startsWith`: character-wise prefix test. -/
def jsStartsWith (s p : String) : Bool :=
  p.data.isPrefixOf s.data

/-- The argument record of the `client.createAction` call built by
`sendBSV`: a single output paying `Math.round(amount * 100000000)`
satoshis to the P2PKH locking script for the recipient address. -/
def sendArgs (env : SendEnv) (toAddr : String) (amount : ℚ) :
    CreateSendArgs :=
  { description := "Shout BSV at an address"
    outputs := [{ lockingScript := env.lockScript toAddr
                  satoshis := jsRound (amount * 100000000)
                  outputDescription := "BSV for recipient address" }] }

/-- Model of `sendBSV` from `App.tsx`: on mainnet, a recipient address that does
not start with `"1"` is rejected before any wallet call; otherwise a
single-output action paying `Math.round(amount * 100000000)` satoshis to
the P2PKH locking script for the recipient is created and broadcast.  The
second component is the list of wallet `createAction` calls issued. -/
def sendBSV (env : SendEnv) (toAddr : String) (amount : ℚ) :
    SendOutcome × List CreateSendArgs :=
  if env.network = .mainnet ∧ jsStartsWith toAddr "1" = false then
    (.rejectedNetwork, [])
  else
    match env.createAction (sendArgs env toAddr amount) with
    | .ok txid => (.sent txid, [sendArgs env toAddr amount])
    | .error e => (.threw e, [sendArgs env toAddr amount])

/-- Observable outcome of `handleShoutBSV`. -/
inductive ShoutOutcome where
  /-- Recipient or amount field empty: alert, no wallet call. -/
  | rejectedEmpty
  /-- Case where the numeric value of the amount field is NaN or not
  positive: alert, no wallet call. -/
  | rejectedInvalid
  /-- Case where `sendBSV` rejected the mainnet address prefix. -/
  | rejectedNetwork
  /-- The send succeeded with this txid. -/
  | success (txid : String)
  /-- The wallet call threw. -/
  | threw (e : String)
deriving DecidableEq, Repr

/-- Model of `handleShoutBSV` from `App.tsx`: validates that both fields are
non-empty and that `Number(amount)` is a number greater than zero before
calling `sendBSV`.  `amt` stands for the JS value `Number(amountStr)`:
`none` models `NaN`, `some q` models the finite numeric value (JS string
to number conversion is a host-language builtin, supplied as an oracle).
The second component is the list of wallet `createAction` calls issued. -/
def handleShoutBSV (recipient : String) (amountStr : String)
    (amt : Option ℚ) (env : SendEnv) : ShoutOutcome × List CreateSendArgs :=
  if recipient = "" ∨ amountStr = "" then
    (.rejectedEmpty, [])
  else
    match amt with
    | none => (.rejectedInvalid, [])
    | some q =>
      if q ≤ 0 then
        (.rejectedInvalid, [])
      else
        match sendBSV env recipient q with
        | (.rejectedNetwork, calls) => (.rejectedNetwork, calls)
        | (.sent txid, calls) => (.success txid, calls)
        | (.threw e, calls) => (.threw e, calls)

/-- Argument record of `client.getPublicKey` as built by
`getMountaintopsAddress`: protocol id level 1 with name mountaintops, key
id 1, counterparty anyone, forSelf true. -/
structure PubKeyArgs where
  protocolID : ℕ × String
  keyID : String
  counterparty : String
  forSelf : Bool
deriving DecidableEq, Repr

/-- The fixed argument record used by `getMountaintopsAddress`. -/
def mountaintopsArgs : PubKeyArgs :=
  { protocolID := (1, "mountaintops")
    keyID := "1"
    counterparty := "anyone"
    forSelf := true }

/-- Wallet capabilities used by `getMountaintopsAddress`: the current
network and the derived public key for a given argument record. -/
structure KeyWallet where
  getNetwork : Network
  getPublicKey : PubKeyArgs → String

/-- Model of `getMountaintopsAddress` from `App.tsx`: asks the wallet for its
network and for the public key derived from the fixed protocol id and
key id, then converts the key to a network-specific address string.
`toAddress` stands for the SDK conversion
`PublicKey.fromString(pk).toAddress(network)` (external SDK code,
modelled as an arbitrary function).  No state is read or written besides
the two wallet queries: the result is recomputed on every call and never
cached. -/
def getMountaintopsAddress (toAddress : String → Network → String)
    (w : KeyWallet) : String :=
  toAddress (w.getPublicKey mountaintopsArgs) w.getNetwork

/-- One entry of the unspent-outputs JSON array returned by the block
explorer.  `handleImportFunds` reads only `tx_hash` and `tx_pos`; the
remaining fields of the response entry are carried along untouched. -/
structure UTXO where
  tx_hash : String
  tx_pos : ℕ
  value : ℤ
  height : ℤ
deriving DecidableEq, Repr

/-- One element of the `inputs` array passed to `client.createAction` by
`handleImportFunds`. -/
structure CreateActionInput where
  outpoint : String
  inputDescription : String
  unlockingScriptLength : ℕ
deriving DecidableEq, Repr

/-- The mapping `handleImportFunds` applies to each fetched UTXO:
`outpoint` is `tx_hash + "." + tx_pos`, the description is fixed, and the
declared unlocking-script length is the constant `108`. -/
def mkImportInput (x : UTXO) : CreateActionInput :=
  { outpoint := x.tx_hash ++ "." ++ toString x.tx_pos
    inputDescription := "Redeem from the Mountaintops"
    unlockingScriptLength := 108 }

/-- The `signableTransaction` record returned by `client.createAction`:
an opaque reference token and the atomic BEEF bytes of the partially
built transaction. -/
structure SignableTransaction where
  reference : String
  tx : List ℕ
deriving DecidableEq, Repr

/-- Stand-in for the SDK `Transaction` object produced by
`Transaction.fromAtomicBEEF`; the app never inspects it, it is only
handed to the unlocking-script signer. -/
def Tx : Type := List ℕ

/-- Environment of the import flow: each field models one external call
the flow can issue, in `Except` form (`error` = thrown JS exception).
`fetchUnspent` is keyed by the request URL; `parseTx` models the SDK
`Transaction.fromAtomicBEEF`; `sign` models `importer.unlock(client)`
applied to the parsed transaction and an input index, returning the
unlocking-script hex (`script.toHex()`); `signAction` and `abortAction`
model the wallet calls of the same names. -/
structure ImportEnv where
  getNetwork : Except String Network
  fetchUnspent : String → Except String (List UTXO)
  createAction : List CreateActionInput → Except String SignableTransaction
  parseTx : List ℕ → Except String Tx
  sign : Tx → ℕ → Except String String
  signAction : String → List (ℕ × String) → Except String Unit
  abortAction : String → Except String Unit

/-- One externally observable call issued by the import flow, recorded
at the moment the call is made (also when the call then throws). -/
inductive Ev where
  | getNetwork
  | httpGet (url : String)
  | createAction (inputs : List CreateActionInput)
  | signInput (i : ℕ)
  | signAction (reference : String) (spends : List (ℕ × String))
  | abortAction (reference : String)
deriving DecidableEq, Repr

/-- Observable outcome of `handleImportFunds`. -/
inductive ImportOutcome where
  /-- A precondition guard fired: alert shown, nothing else done. -/
  | refused (msg : String)
  /-- The try block ran to completion: balance reset to zero. -/
  | done
  /-- The catch block completed: this alert message was shown. -/
  | failed (msg : String)
  /-- Case where `abortAction` threw inside the catch block: the exception escapes
  `handleImportFunds` and no alert is shown. -/
  | crashed (e : String)
deriving DecidableEq, Repr

/-- Result of one `handleImportFunds` run: the outcome, the chronological
trace of external calls, and the balance state after the run. -/
structure ImportResult where
  outcome : ImportOutcome
  trace : List Ev
  balanceAfter : ℚ
deriving Repr

/-- The alert message built by the catch block: the prefix Import failed:
followed by the exception message, or by unknown error when that message
is empty (the JS or-else on a falsy message string). -/
def importFailMsg (e : String) : String :=
  "Import failed: " ++ (if e = "" then "unknown error" else e)

/-- The catch block of `handleImportFunds`: when a reference has been
obtained, call `abortAction` with it once (recording the call); when that
abort call itself throws, its exception escapes and the failure alert is
never shown.  Without a reference no abort call is made. -/
def catchBlock (env : ImportEnv) (reference : Option String) (e : String)
    (tr : List Ev) (bal : ℚ) : ImportResult :=
  match reference with
  | none => ⟨.failed (importFailMsg e), tr, bal⟩
  | some r =>
    match env.abortAction r with
    | .ok _ => ⟨.failed (importFailMsg e), tr ++ [.abortAction r], bal⟩
    | .error ae => ⟨.crashed ae, tr ++ [.abortAction r], bal⟩

/-- The signing loop of `handleImportFunds` over the input indices `l`:
returns the `spends` entries recorded so far, the indices on which the
signer was invoked (in call order), and the exception of the first
failing call, if any.  The loop stops at the first failure. -/
def signInputs (env : ImportEnv) (tx : Tx) :
    List ℕ → List (ℕ × String) × List ℕ × Option String
  | [] => ([], [], none)
  | i :: rest =>
    match env.sign tx i with
    | .error e => ([], [i], some e)
    | .ok s =>
      let (sp, calls, e?) := signInputs env tx rest
      ((i, s) :: sp, i :: calls, e?)

/-- The try block of `handleImportFunds` (guards already passed, address
`a`): resolve the network, fetch the unspent outputs, create the pending
action over the mapped inputs, parse the returned BEEF, sign each input
index in ascending order, and submit the spends via `signAction`; any
thrown step transfers control to `catchBlock` with the reference obtained
so far. -/
def importTry (a : String) (bal : ℚ) (env : ImportEnv) : ImportResult :=
  match env.getNetwork with
  | .error e => catchBlock env none e [.getNetwork] bal
  | .ok nw =>
    let url := unspentUrl nw a
    match env.fetchUnspent url with
    | .error e => catchBlock env none e [.getNetwork, .httpGet url] bal
    | .ok us =>
      let inputs := us.map mkImportInput
      let tr := [.getNetwork, .httpGet url, .createAction inputs]
      match env.createAction inputs with
      | .error e => catchBlock env none e tr bal
      | .ok st =>
        match env.parseTx st.tx with
        | .error e => catchBlock env (some st.reference) e tr bal
        | .ok tx =>
          let (spends, calls, e?) := signInputs env tx (List.range inputs.length)
          let tr2 := tr ++ calls.map Ev.signInput
          match e? with
          | some e => catchBlock env (some st.reference) e tr2 bal
          | none =>
            let tr3 := tr2 ++ [.signAction st.reference spends]
            match env.signAction st.reference spends with
            | .error e => catchBlock env (some st.reference) e tr3 bal
            | .ok _ => ⟨.done, tr3, 0⟩

/-- JS truthiness of the `mountaintopsAddress` state: `null` and the
empty string are falsy. -/
def jsFalsyAddr : Option String → Bool
  | none => true
  | some s => s == ""

/-- `handleImportFunds` from `App.tsx`: refuses when the address state is
falsy or the balance state is negative (balance `-1` means never
fetched), refuses when the observed balance is zero, and otherwise runs
the import try block. -/
def handleImportFunds (addr : Option String) (bal : ℚ) (env : ImportEnv) :
    ImportResult :=
  if jsFalsyAddr addr = true ∨ bal < 0 then
    ⟨.refused "Get your address and balance first!", [], bal⟩
  else if bal = 0 then
    ⟨.refused "No money to import!", [], bal⟩
  else
    importTry (addr.getD "") bal env

/-- Indices passed to the unlocking-script signer, in call order. -/
def signEvents : List Ev → List ℕ
  | [] => []
  | .signInput i :: tr => i :: signEvents tr
  | _ :: tr => signEvents tr

/-- References passed to `abortAction`, in call order. -/
def abortRefs : List Ev → List String
  | [] => []
  | .abortAction r :: tr => r :: abortRefs tr
  | _ :: tr => abortRefs tr

/-- Submissions made through `signAction` (reference and spends mapping),
in call order. -/
def submissions : List Ev → List (String × List (ℕ × String))
  | [] => []
  | .signAction r sp :: tr => (r, sp) :: submissions tr
  | _ :: tr => submissions tr

/-- Classification of one import try-block run, derived from the
environment by following the same step order as the code: either no step
throws, or the first thrown step occurs before a pending-action reference
exists, or it occurs after reference `r` was obtained. -/
inductive RunStatus where
  | noThrow
  | threwBeforeRef (e : String)
  | threwAfterRef (r : String) (e : String)
deriving DecidableEq, Repr

/-- The classification of the try-block run for address `a` under
environment `env`. -/
def runStatus (env : ImportEnv) (a : String) : RunStatus :=
  match env.getNetwork with
  | .error e => .threwBeforeRef e
  | .ok nw =>
    match env.fetchUnspent (unspentUrl nw a) with
    | .error e => .threwBeforeRef e
    | .ok us =>
      let inputs := us.map mkImportInput
      match env.createAction inputs with
      | .error e => .threwBeforeRef e
      | .ok st =>
        match env.parseTx st.tx with
        | .error e => .threwAfterRef st.reference e
        | .ok tx =>
          match signInputs env tx (List.range inputs.length) with
          | (_, _, some e) => .threwAfterRef st.reference e
          | (spends, _, none) =>
            match env.signAction st.reference spends with
            | .error e => .threwAfterRef st.reference e
            | .ok _ => .noThrow

/-- Concrete send environment on mainnet whose wallet call succeeds with
a fixed txid; used to evaluate the send-path theorems on explicit
inputs. -/
def mainSendEnv : SendEnv :=
  { network := .mainnet
    lockScript := fun a => "76a914" ++ a ++ "88ac"
    createAction := fun _ => .ok "txid0" }

/-- Concrete import environment in which every external call succeeds
and the explorer reports no unspent outputs. -/
def trivEnv : ImportEnv :=
  { getNetwork := .ok .mainnet
    fetchUnspent := fun _ => .ok []
    createAction := fun _ => .ok ⟨"ref0", [1]⟩
    parseTx := fun b => .ok b
    sign := fun _ i => .ok ("sig" ++ toString i)
    signAction := fun _ _ => .ok ()
    abortAction := fun _ => .ok () }

/-- Concrete import environment with two unspent outputs in which every
external call succeeds. -/
def utxoEnv : ImportEnv :=
  { getNetwork := .ok .mainnet
    fetchUnspent := fun _ => .ok [⟨"aa", 0, 500, 10⟩, ⟨"bb", 1, 700, 11⟩]
    createAction := fun _ => .ok ⟨"refU", [2]⟩
    parseTx := fun b => .ok b
    sign := fun _ i => .ok ("sig" ++ toString i)
    signAction := fun _ _ => .ok ()
    abortAction := fun _ => .ok () }

/-- Concrete import environment in which signing throws after the
pending-action reference R was obtained, and the abort call succeeds. -/
def abortOkEnv : ImportEnv :=
  { getNetwork := .ok .mainnet
    fetchUnspent := fun _ => .ok [⟨"aa", 0, 1000, 10⟩]
    createAction := fun _ => .ok ⟨"R", [1]⟩
    parseTx := fun b => .ok b
    sign := fun _ _ => .error "boom"
    signAction := fun _ _ => .ok ()
    abortAction := fun _ => .ok () }

/-- Concrete import environment in which signing throws after the
pending-action reference R was obtained, and the abort call itself also
throws. -/
def abortFailEnv : ImportEnv :=
  { getNetwork := .ok .mainnet
    fetchUnspent := fun _ => .ok [⟨"aa", 0, 1000, 10⟩]
    createAction := fun _ => .ok ⟨"R", [1]⟩
    parseTx := fun b => .ok b
    sign := fun _ _ => .error "boom"
    signAction := fun _ _ => .ok ()
    abortAction := fun _ => .error "abort boom" }

/-- Concrete wallet with a fixed network and public key, used to evaluate
the key-derivation theorem on an explicit input. -/
def demoWallet : KeyWallet :=
  { getNetwork := .mainnet
    getPublicKey := fun _ => "02deadbeef" }

/-- Helper: when the address state is a non-empty string and the observed
balance is positive, the precondition guards pass and the import handler
runs its try block. -/
theorem handleImportFunds_run (a : String) (bal : ℚ) (env : ImportEnv)
    (ha : a ≠ "") (hb : 0 < bal) :
    handleImportFunds (some a) bal env = importTry a bal env := by
  simp [handleImportFunds, jsFalsyAddr, ha, not_lt.mpr hb.le, hb.ne.symm]

/-- Helper: the signer-call observation distributes over trace
concatenation. -/
theorem signEvents_append (t1 t2 : List Ev) :
    signEvents (t1 ++ t2) = signEvents t1 ++ signEvents t2 := by
  induction t1 with
  | nil => rfl
  | cons e t ih => cases e <;> simp [signEvents, ih]

/-- Helper: the submission observation distributes over trace
concatenation. -/
theorem submissions_append (t1 t2 : List Ev) :
    submissions (t1 ++ t2) = submissions t1 ++ submissions t2 := by
  induction t1 with
  | nil => rfl
  | cons e t ih => cases e <;> simp [submissions, ih]

/-- Helper: the abort observation distributes over trace concatenation. -/
theorem abortRefs_append (t1 t2 : List Ev) :
    abortRefs (t1 ++ t2) = abortRefs t1 ++ abortRefs t2 := by
  induction t1 with
  | nil => rfl
  | cons e t ih => cases e <;> simp [abortRefs, ih]

/-- Helper: a trace consisting only of signer calls on the indices of l
observes exactly l. -/
theorem signEvents_map (l : List ℕ) :
    signEvents (List.map Ev.signInput l) = l := by
  induction l with
  | nil => rfl
  | cons i rest ih => simp [signEvents, ih]

/-- Helper: a trace consisting only of signer calls contains no
submission. -/
theorem submissions_map (l : List ℕ) :
    submissions (List.map Ev.signInput l) = [] := by
  induction l with
  | nil => rfl
  | cons i rest ih => simp [submissions, ih]

/-- Helper: a trace consisting only of signer calls contains no abort
call. -/
theorem abortRefs_map (l : List ℕ) :
    abortRefs (List.map Ev.signInput l) = [] := by
  induction l with
  | nil => rfl
  | cons i rest ih => simp [abortRefs, ih]

/-- Helper: when the signer succeeds on every index of l, the signing
loop invokes it exactly on l in order, reports no exception, and records
spends keyed exactly by l. -/
theorem signInputs_all_ok (env : ImportEnv) (tx : Tx) (l : List ℕ)
    (h : ∀ i ∈ l, ∃ s, env.sign tx i = .ok s) :
    (signInputs env tx l).2.1 = l ∧ (signInputs env tx l).2.2 = none ∧
    (signInputs env tx l).1.map Prod.fst = l := by
  induction l with
  | nil => simp [signInputs]
  | cons i rest ih =>
    obtain ⟨s, hs⟩ := h i (by simp)
    have ih2 := ih fun j hj => h j (by simp [hj])
    simp [signInputs, hs, ih2.1, ih2.2.1, ih2.2.2]

/-- Helper: once the network resolves and the unspent fetch succeeds,
every possible continuation of the try block leaves a trace that starts
with the network query, the HTTP GET, and the pending-action creation
call over the mapped inputs. -/
theorem importTry_trace_shape (a : String) (bal : ℚ) (env : ImportEnv)
    (nw : Network) (us : List UTXO)
    (h1 : env.getNetwork = .ok nw)
    (h2 : env.fetchUnspent (unspentUrl nw a) = .ok us) :
    ∃ tr2, (importTry a bal env).trace =
      Ev.getNetwork :: Ev.httpGet (unspentUrl nw a) ::
        Ev.createAction (us.map mkImportInput) :: tr2 := by
  simp only [importTry, h1, h2, List.length_map]
  cases h3 : env.createAction (us.map mkImportInput) with
  | error e => exact ⟨[], rfl⟩
  | ok st =>
    cases h4 : env.parseTx st.tx with
    | error e =>
      cases h5 : env.abortAction st.reference with
      | ok u => exact ⟨[.abortAction st.reference], by simp [catchBlock, h4, h5]⟩
      | error ae =>
        exact ⟨[.abortAction st.reference], by simp [catchBlock, h4, h5]⟩
    | ok tx =>
      rcases hsi : signInputs env tx (List.range us.length)
        with ⟨sp, calls, e?⟩
      cases e? with
      | some e =>
        cases h5 : env.abortAction st.reference with
        | ok u =>
          exact ⟨calls.map Ev.signInput ++ [.abortAction st.reference],
            by simp [catchBlock, h4, h5, hsi]⟩
        | error ae =>
          exact ⟨calls.map Ev.signInput ++ [.abortAction st.reference],
            by simp [catchBlock, h4, h5, hsi]⟩
      | none =>
        cases h6 : env.signAction st.reference sp with
        | ok u =>
          exact ⟨calls.map Ev.signInput ++ [.signAction st.reference sp],
            by simp [h4, hsi, h6]⟩
        | error e =>
          cases h5 : env.abortAction st.reference with
          | ok u =>
            exact ⟨calls.map Ev.signInput ++ [.signAction st.reference sp,
              .abortAction st.reference], by simp [catchBlock, h4, h5, hsi, h6]⟩
          | error ae =>
            exact ⟨calls.map Ev.signInput ++ [.signAction st.reference sp,
              .abortAction st.reference], by simp [catchBlock, h4, h5, hsi, h6]⟩

/-- Helper: every input built by the UTXO-to-input mapping declares the
constant unlocking-script length 108. -/
theorem mkImportInput_length_const (us : List UTXO) :
    (us.map mkImportInput).map CreateActionInput.unlockingScriptLength =
      List.replicate us.length 108 := by
  induction us with
  | nil => rfl
  | cons x rest ih => simp [mkImportInput, ih, List.replicate_succ]

/-- C3: for every balance payload with integer fields confirmed and
unconfirmed, getBalance returns exactly the sum divided by 100000000,
and the fixture payload with confirmed 150000000 and unconfirmed 0
yields exactly 1.5. -/
theorem getBalance_exact_quotient (n : Network) (address : String)
    (c u : ℤ) :
    (fetchBSVBalance n ⟨c, u⟩ address).value = ((c : ℚ) + u) / 100000000 ∧
    (fetchBSVBalance n ⟨150000000, 0⟩ address).value = 3 / 2 := by
  constructor
  · simp [fetchBSVBalance]
  · norm_num [fetchBSVBalance]

/-- C2 counterexample: on the payload with confirmed 150000000 and
unconfirmed 0, getBalance does not return the satoshi sum 150000000 (it
returns 1.5, the sum divided by 100000000), refuting the claim that the
returned value is the sum of the two satoshi fields. -/
theorem getBalance_not_satoshi_sum :
    (fetchBSVBalance .mainnet ⟨150000000, 0⟩ "1addr").value ≠
      ((150000000 : ℚ) + 0) := by
  norm_num [fetchBSVBalance]

/-- C2 (amended): for every address, network and payload, getBalance
issues exactly one HTTP GET, to the balance endpoint selected by the
network, parses the integer satoshi fields confirmed and unconfirmed,
and returns their sum divided by 100000000 (a BSV amount, not a satoshi
amount). -/
theorem getBalance_one_get_scaled_sum (n : Network) (address : String)
    (p : BalancePayload) :
    (fetchBSVBalance n p address).httpGets = [balanceUrl n address] ∧
    (fetchBSVBalance n p address).httpGets.length = 1 ∧
    (fetchBSVBalance n p address).value =
      ((p.confirmed : ℚ) + p.unconfirmed) / 100000000 := by
  refine ⟨rfl, rfl, ?_⟩
  simp [fetchBSVBalance]

/-- C7: two calls to the address derivation against the same wallet (the
same wallet-returned public key for the fixed protocol id and key id,
and the same network) yield the same address string, for any SDK
address-conversion function; the definition reads no other state, so the
result is recomputed deterministically on every call and never cached. -/
theorem derive_address_deterministic
    (toAddress : String → Network → String) (w w2 : KeyWallet)
    (hnet : w.getNetwork = w2.getNetwork)
    (hkey : w.getPublicKey mountaintopsArgs =
      w2.getPublicKey mountaintopsArgs) :
    getMountaintopsAddress toAddress w = getMountaintopsAddress toAddress w2 := by
  simp [getMountaintopsAddress, hnet, hkey]

/-- Witness for C7: the determinism theorem evaluated on a concrete
wallet and conversion function. -/
theorem derive_address_deterministic_witness :
    getMountaintopsAddress (fun pk nw => pk ++ wocNetBalance nw) demoWallet =
      getMountaintopsAddress (fun pk nw => pk ++ wocNetBalance nw)
        demoWallet :=
  derive_address_deterministic (fun pk nw => pk ++ wocNetBalance nw)
    demoWallet demoWallet rfl rfl

/-- C4: on mainnet, a recipient address that does not begin with the
mainnet prefix character 1 is rejected as a validation failure with no
wallet call issued; when the prefix matches, the send is attempted (the
createAction call is issued). -/
theorem send_mainnet_prefix_policy (env : SendEnv) (toAddr : String)
    (amount : ℚ) :
    (env.network = .mainnet → jsStartsWith toAddr "1" = false →
      sendBSV env toAddr amount = (.rejectedNetwork, [])) ∧
    (env.network = .mainnet → jsStartsWith toAddr "1" = true →
      (sendBSV env toAddr amount).2 = [sendArgs env toAddr amount]) := by
  constructor
  · intro hn hs
    simp [sendBSV, hn, hs]
  · intro hn hs
    simp only [sendBSV, hn, hs]
    norm_num
    cases h : env.createAction (sendArgs env toAddr amount) with
    | ok t => simp [h]
    | error e => simp [h]

/-- Witness for C4: on mainnet, the testnet-style address starting with
mt is rejected with no wallet call, and the address starting with 1 goes
through to exactly one createAction call. -/
theorem send_mainnet_prefix_policy_witness :
    (mainSendEnv.network = .mainnet ∧
      jsStartsWith "mt9Z3aErwmLD2pdRByJ6EDPXFDsxzkq5Nf" "1" = false ∧
      sendBSV mainSendEnv "mt9Z3aErwmLD2pdRByJ6EDPXFDsxzkq5Nf" (1 / 100) =
        (.rejectedNetwork, [])) ∧
    (jsStartsWith "1A1zP1eP5QGefi2DMPTfTL5SLmv7DivfNa" "1" = true ∧
      (sendBSV mainSendEnv "1A1zP1eP5QGefi2DMPTfTL5SLmv7DivfNa" (1 / 100)).2 =
        [sendArgs mainSendEnv "1A1zP1eP5QGefi2DMPTfTL5SLmv7DivfNa" (1 / 100)]) :=
  ⟨⟨rfl, by decide,
    (send_mainnet_prefix_policy mainSendEnv _ _).1 rfl (by decide)⟩,
   ⟨by decide,
    (send_mainnet_prefix_policy mainSendEnv _ _).2 rfl (by decide)⟩⟩

/-- C8: the send path rejects a NaN or non-positive amount before any
wallet call; for a positive amount it issues exactly one createAction
call whose single output pays the rounded satoshi amount (round of
amount times 100000000) to the locking script for the recipient, and
when the wallet returns a txid the send reports that txid. -/
theorem send_amount_validation_conversion
    (recipient amountStr : String) (amt : Option ℚ) (env : SendEnv) :
    (recipient ≠ "" → amountStr ≠ "" → amt = none →
      handleShoutBSV recipient amountStr amt env = (.rejectedInvalid, [])) ∧
    (∀ q, recipient ≠ "" → amountStr ≠ "" → amt = some q → q ≤ 0 →
      handleShoutBSV recipient amountStr amt env = (.rejectedInvalid, [])) ∧
    (∀ q, recipient ≠ "" → amountStr ≠ "" → amt = some q → 0 < q →
      ¬(env.network = .mainnet ∧ jsStartsWith recipient "1" = false) →
      (handleShoutBSV recipient amountStr amt env).2 =
        [sendArgs env recipient q] ∧
      (sendArgs env recipient q).outputs =
        [{ lockingScript := env.lockScript recipient
           satoshis := jsRound (q * 100000000)
           outputDescription := "BSV for recipient address" }] ∧
      (∀ t, env.createAction (sendArgs env recipient q) = .ok t →
        (handleShoutBSV recipient amountStr amt env).1 = .success t)) := by
  refine ⟨?_, ?_, ?_⟩
  · intro hr ha hn
    simp [handleShoutBSV, hr, ha, hn]
  · intro q hr ha hq hle
    simp [handleShoutBSV, hr, ha, hq, hle]
  · intro q hr ha hq hpos hnet
    have hq0 : ¬ q ≤ 0 := not_le.mpr hpos
    have hcond : ¬(recipient = "" ∨ amountStr = "") := by simp [hr, ha]
    refine ⟨?_, rfl, ?_⟩
    · simp only [handleShoutBSV, hq, hcond, if_neg hcond, if_neg hq0, sendBSV,
        if_neg hnet]
      cases h : env.createAction (sendArgs env recipient q) with
      | ok t => simp [h]
      | error e => simp [h]
    · intro t ht
      simp [handleShoutBSV, hq, hcond, hq0, sendBSV, if_neg hnet, ht]

/-- Witness for C8: sending 0.01 BSV to the address starting with 1 on
mainnet issues one createAction call paying round(0.01 * 100000000)
satoshis and reports the returned txid. -/
theorem send_amount_validation_conversion_witness :
    (("1A1zP1eP5QGefi2DMPTfTL5SLmv7DivfNa" : String) ≠ "" ∧
      ("0.01" : String) ≠ "" ∧ (0 : ℚ) < 1 / 100 ∧
      ¬(mainSendEnv.network = .mainnet ∧
        jsStartsWith "1A1zP1eP5QGefi2DMPTfTL5SLmv7DivfNa" "1" = false)) ∧
    (handleShoutBSV "1A1zP1eP5QGefi2DMPTfTL5SLmv7DivfNa" "0.01"
        (some (1 / 100)) mainSendEnv).2 =
      [sendArgs mainSendEnv "1A1zP1eP5QGefi2DMPTfTL5SLmv7DivfNa" (1 / 100)] ∧
    (handleShoutBSV "1A1zP1eP5QGefi2DMPTfTL5SLmv7DivfNa" "0.01"
        (some (1 / 100)) mainSendEnv).1 = .success "txid0" := by
  have h := (send_amount_validation_conversion
      "1A1zP1eP5QGefi2DMPTfTL5SLmv7DivfNa" "0.01" (some (1 / 100))
      mainSendEnv).2.2 (1 / 100) (by decide) (by decide) rfl (by norm_num)
      (by decide)
  exact ⟨⟨by decide, by decide, by norm_num, by decide⟩, h.1, h.2.2 "txid0" rfl⟩

/-- C9: the import flow is refused, with no HTTP fetch and no wallet
call, when the address state is missing, when no balance has been
observed (negative balance state), or when the observed balance is zero;
and whenever the flow is not refused, an address was present and the
observed balance was non-negative and non-zero. -/
theorem import_preconditions_guard (addr : Option String) (bal : ℚ)
    (env : ImportEnv) :
    (addr = none →
      handleImportFunds addr bal env =
        ⟨.refused "Get your address and balance first!", [], bal⟩) ∧
    (bal < 0 →
      handleImportFunds addr bal env =
        ⟨.refused "Get your address and balance first!", [], bal⟩) ∧
    (∀ a, addr = some a → a ≠ "" → bal = 0 →
      handleImportFunds addr bal env =
        ⟨.refused "No money to import!", [], bal⟩) ∧
    ((∀ m, (handleImportFunds addr bal env).outcome ≠ .refused m) →
      (∃ a, addr = some a ∧ a ≠ "") ∧ 0 < bal) := by
  refine ⟨?_, ?_, ?_, ?_⟩
  · intro h
    subst h
    simp [handleImportFunds, jsFalsyAddr]
  · intro h
    simp [handleImportFunds, h]
  · intro a ha hne h0
    subst ha
    subst h0
    simp [handleImportFunds, jsFalsyAddr, hne]
  · intro h
    rcases addr with _ | a
    · exact absurd (by simp [handleImportFunds, jsFalsyAddr])
        (h "Get your address and balance first!")
    · by_cases he : a = ""
      · exact absurd (by simp [handleImportFunds, jsFalsyAddr, he])
          (h "Get your address and balance first!")
      · by_cases hlt : bal < 0
        · exact absurd (by simp [handleImportFunds, hlt])
            (h "Get your address and balance first!")
        · by_cases h0 : bal = 0
          · exact absurd
              (by simp [handleImportFunds, jsFalsyAddr, he, hlt, h0])
              (h "No money to import!")
          · exact ⟨⟨a, rfl, he⟩, lt_of_le_of_ne (not_lt.mp hlt) (Ne.symm h0)⟩

/-- Witness for C9: with no derived address the import is refused with an
empty trace, and with a zero observed balance it is refused with the
no-money alert and an empty trace. -/
theorem import_preconditions_guard_witness :
    handleImportFunds none 1 trivEnv =
      ⟨.refused "Get your address and balance first!", [], 1⟩ ∧
    handleImportFunds (some "1a") 0 trivEnv =
      ⟨.refused "No money to import!", [], 0⟩ :=
  ⟨(import_preconditions_guard none 1 trivEnv).1 rfl,
   (import_preconditions_guard (some "1a") 0 trivEnv).2.2.1 "1a" rfl
     (by decide) rfl⟩

/-- C6: when the UTXO fetch returns zero unspent outputs, the import flow
still requests a pending action with an empty input list, signs no
input, submits an empty spends mapping, and reaches the successful
completion state (given that the wallet calls themselves succeed). -/
theorem import_zero_utxos_completes
    (a : String) (bal : ℚ) (env : ImportEnv) (nw : Network)
    (st : SignableTransaction) (tx : Tx)
    (ha : a ≠ "") (hb : 0 < bal)
    (h1 : env.getNetwork = .ok nw)
    (h2 : env.fetchUnspent (unspentUrl nw a) = .ok [])
    (h3 : env.createAction [] = .ok st)
    (h4 : env.parseTx st.tx = .ok tx)
    (h5 : env.signAction st.reference [] = .ok ()) :
    handleImportFunds (some a) bal env =
      ⟨.done, [.getNetwork, .httpGet (unspentUrl nw a), .createAction [],
               .signAction st.reference []], 0⟩ := by
  rw [handleImportFunds_run a bal env ha hb]
  simp [importTry, h1, h2, h3, h4, h5, signInputs]

/-- Witness for C6: in the concrete environment with zero unspent
outputs the import run completes with a pending action over an empty
input list and no signer call. -/
theorem import_zero_utxos_completes_witness :
    ("1addr" : String) ≠ "" ∧ (0 : ℚ) < 1 ∧
    trivEnv.fetchUnspent (unspentUrl .mainnet "1addr") = .ok [] ∧
    handleImportFunds (some "1addr") 1 trivEnv =
      ⟨.done, [.getNetwork, .httpGet (unspentUrl .mainnet "1addr"),
               .createAction [], .signAction "ref0" []], 0⟩ :=
  ⟨by decide, by norm_num, rfl,
   import_zero_utxos_completes "1addr" 1 trivEnv .mainnet ⟨"ref0", [1]⟩ [1]
     (by decide) (by norm_num) rfl rfl rfl rfl rfl⟩

/-- C5: in an import run over n declared inputs in which every signer
call succeeds, the signer is invoked exactly once per input index in
ascending order 0..n-1 (the trace of signer calls equals the index
range), and the spends mapping submitted to the wallet is submitted
exactly once and contains exactly n entries keyed by those indices. -/
theorem import_signing_sequential_complete
    (a : String) (bal : ℚ) (env : ImportEnv) (nw : Network) (us : List UTXO)
    (st : SignableTransaction) (tx : Tx)
    (ha : a ≠ "") (hb : 0 < bal)
    (h1 : env.getNetwork = .ok nw)
    (h2 : env.fetchUnspent (unspentUrl nw a) = .ok us)
    (h3 : env.createAction (us.map mkImportInput) = .ok st)
    (h4 : env.parseTx st.tx = .ok tx)
    (h5 : ∀ i ∈ List.range us.length, ∃ s, env.sign tx i = .ok s) :
    signEvents (handleImportFunds (some a) bal env).trace =
      List.range us.length ∧
    ∃ sp, submissions (handleImportFunds (some a) bal env).trace =
        [(st.reference, sp)] ∧
      sp.map Prod.fst = List.range us.length := by
  rw [handleImportFunds_run a bal env ha hb]
  obtain ⟨hc, hn, hm⟩ := signInputs_all_ok env tx (List.range us.length) h5
  rcases hsi : signInputs env tx (List.range us.length) with ⟨sp, calls, e?⟩
  rw [hsi] at hc hn hm
  simp only at hc hn hm
  subst hn
  subst hc
  simp only [importTry, h1, h2, h3, h4, List.length_map, hsi]
  cases h6 : env.signAction st.reference sp with
  | ok u =>
    refine ⟨?_, sp, ?_, hm⟩
    · simp [signEvents, signEvents_append, signEvents_map]
    · simp [submissions, submissions_append, submissions_map]
  | error e =>
    cases h7 : env.abortAction st.reference with
    | ok u =>
      refine ⟨?_, sp, ?_, hm⟩
      · simp [catchBlock, h7, signEvents, signEvents_append, signEvents_map]
      · simp [catchBlock, h7, submissions, submissions_append, submissions_map]
    | error ae =>
      refine ⟨?_, sp, ?_, hm⟩
      · simp [catchBlock, h7, signEvents, signEvents_append, signEvents_map]
      · simp [catchBlock, h7, submissions, submissions_append, submissions_map]

/-- Witness for C5: in the concrete environment with two unspent
outputs the signer is called exactly on indices 0 and 1 in order and the
submitted spends mapping is keyed by exactly those indices. -/
theorem import_signing_sequential_complete_witness :
    (("1a" : String) ≠ "" ∧ (0 : ℚ) < 1 ∧
      (∀ i ∈ List.range 2, ∃ s, utxoEnv.sign [2] i = .ok s)) ∧
    signEvents (handleImportFunds (some "1a") 1 utxoEnv).trace =
      List.range 2 ∧
    ∃ sp, submissions (handleImportFunds (some "1a") 1 utxoEnv).trace =
        [("refU", sp)] ∧
      sp.map Prod.fst = List.range 2 := by
  have h := import_signing_sequential_complete "1a" 1 utxoEnv .mainnet
      [⟨"aa", 0, 500, 10⟩, ⟨"bb", 1, 700, 11⟩] ⟨"refU", [2]⟩ [2]
      (by decide) (by norm_num) rfl rfl rfl rfl
      (fun i _ => ⟨"sig" ++ toString i, rfl⟩)
  exact ⟨⟨by decide, by norm_num, fun i _ => ⟨"sig" ++ toString i, rfl⟩⟩,
    h.1, h.2⟩

/-- C10: in every import attempt that reaches the pending-action
creation call, the declared inputs are exactly the mapped fetched UTXOs,
and every one of them declares the constant unlocking-script length 108,
regardless of any other field of the fetched entries. -/
theorem import_inputs_constant_unlocking_length
    (a : String) (bal : ℚ) (env : ImportEnv) (nw : Network) (us : List UTXO)
    (ha : a ≠ "") (hb : 0 < bal)
    (h1 : env.getNetwork = .ok nw)
    (h2 : env.fetchUnspent (unspentUrl nw a) = .ok us) :
    (∃ tr2, (handleImportFunds (some a) bal env).trace =
        Ev.getNetwork :: Ev.httpGet (unspentUrl nw a) ::
          Ev.createAction (us.map mkImportInput) :: tr2) ∧
    (us.map mkImportInput).map CreateActionInput.unlockingScriptLength =
      List.replicate us.length 108 := by
  rw [handleImportFunds_run a bal env ha hb]
  exact ⟨importTry_trace_shape a bal env nw us h1 h2,
    mkImportInput_length_const us⟩

/-- Witness for C10: in the concrete environment with two fetched UTXOs
the creation call declares two inputs, both with unlocking-script length
108. -/
theorem import_inputs_constant_unlocking_length_witness :
    (∃ tr2, (handleImportFunds (some "1a") 1 utxoEnv).trace =
        Ev.getNetwork :: Ev.httpGet (unspentUrl .mainnet "1a") ::
          Ev.createAction
            (([⟨"aa", 0, 500, 10⟩, ⟨"bb", 1, 700, 11⟩] : List UTXO).map
              mkImportInput) :: tr2) ∧
    (([⟨"aa", 0, 500, 10⟩, ⟨"bb", 1, 700, 11⟩] : List UTXO).map
        mkImportInput).map CreateActionInput.unlockingScriptLength =
      List.replicate
        ([⟨"aa", 0, 500, 10⟩, ⟨"bb", 1, 700, 11⟩] : List UTXO).length 108 :=
  import_inputs_constant_unlocking_length "1a" 1 utxoEnv .mainnet _
    (by decide) (by norm_num) rfl rfl

/-- C1 (amended): in an import run past the guards, classified by where
the first exception (if any) is thrown: with no exception no abort call
is made and the run completes; with an exception thrown before a
pending-action reference exists no abort call is made and the original
failure is reported; with an exception thrown after reference r was
obtained, the abort-by-reference operation is called exactly once with
r and is not retried, and then, if the abort call succeeds, the original
failure is reported (not the abort outcome), while if the abort call
itself throws, its exception escapes the handler and the original
failure is not reported. -/
theorem import_abort_policy (a : String) (bal : ℚ) (env : ImportEnv)
    (ha : a ≠ "") (hb : 0 < bal) :
    (runStatus env a = .noThrow →
      abortRefs (handleImportFunds (some a) bal env).trace = [] ∧
      (handleImportFunds (some a) bal env).outcome = .done) ∧
    (∀ e, runStatus env a = .threwBeforeRef e →
      abortRefs (handleImportFunds (some a) bal env).trace = [] ∧
      (handleImportFunds (some a) bal env).outcome =
        .failed (importFailMsg e)) ∧
    (∀ r e, runStatus env a = .threwAfterRef r e →
      abortRefs (handleImportFunds (some a) bal env).trace = [r] ∧
      (env.abortAction r = .ok () →
        (handleImportFunds (some a) bal env).outcome =
          .failed (importFailMsg e)) ∧
      (∀ ae, env.abortAction r = .error ae →
        (handleImportFunds (some a) bal env).outcome = .crashed ae)) := by
  rw [handleImportFunds_run a bal env ha hb]
  cases h1 : env.getNetwork with
  | error e0 =>
    refine ⟨?_, ?_, ?_⟩ <;>
      simp [runStatus, importTry, catchBlock, h1, abortRefs]
  | ok nw =>
    cases h2 : env.fetchUnspent (unspentUrl nw a) with
    | error e0 =>
      refine ⟨?_, ?_, ?_⟩ <;>
        simp [runStatus, importTry, catchBlock, h1, h2, abortRefs]
    | ok us =>
      cases h3 : env.createAction (us.map mkImportInput) with
      | error e0 =>
        refine ⟨?_, ?_, ?_⟩ <;>
          simp [runStatus, importTry, catchBlock, h1, h2, h3, abortRefs]
      | ok st =>
        cases h4 : env.parseTx st.tx with
        | error e0 =>
          cases h5 : env.abortAction st.reference with
          | ok u =>
            refine ⟨?_, ?_, ?_⟩ <;>
              simp [runStatus, importTry, catchBlock, h1, h2, h3, h4, h5,
                abortRefs, abortRefs_append]
          | error ae0 =>
            refine ⟨?_, ?_, ?_⟩ <;>
              simp [runStatus, importTry, catchBlock, h1, h2, h3, h4, h5,
                abortRefs, abortRefs_append]
        | ok tx =>
          rcases hsi : signInputs env tx (List.range us.length)
            with ⟨sp, calls, e?⟩
          cases e? with
          | some e0 =>
            cases h5 : env.abortAction st.reference with
            | ok u =>
              refine ⟨?_, ?_, ?_⟩ <;>
                simp [runStatus, importTry, catchBlock, h1, h2, h3, h4, h5,
                  hsi, abortRefs, abortRefs_append, abortRefs_map]
            | error ae0 =>
              refine ⟨?_, ?_, ?_⟩ <;>
                simp [runStatus, importTry, catchBlock, h1, h2, h3, h4, h5,
                  hsi, abortRefs, abortRefs_append, abortRefs_map]
          | none =>
            cases h6 : env.signAction st.reference sp with
            | ok u =>
              refine ⟨?_, ?_, ?_⟩ <;>
                simp [runStatus, importTry, catchBlock, h1, h2, h3, h4, h6,
                  hsi, abortRefs, abortRefs_append, abortRefs_map]
            | error e0 =>
              cases h5 : env.abortAction st.reference with
              | ok u =>
                refine ⟨?_, ?_, ?_⟩ <;>
                  simp [runStatus, importTry, catchBlock, h1, h2, h3, h4, h5,
                    h6, hsi, abortRefs, abortRefs_append, abortRefs_map]
              | error ae0 =>
                refine ⟨?_, ?_, ?_⟩ <;>
                  simp [runStatus, importTry, catchBlock, h1, h2, h3, h4, h5,
                    h6, hsi, abortRefs, abortRefs_append, abortRefs_map]

/-- Witness for C1: in the concrete environment where signing throws
after reference R was obtained and the abort succeeds, the run calls
abort exactly once with R and reports the original signing failure. -/
theorem import_abort_policy_witness :
    ("1a" : String) ≠ "" ∧ (0 : ℚ) < 1 ∧
    runStatus abortOkEnv "1a" = .threwAfterRef "R" "boom" ∧
    abortRefs (handleImportFunds (some "1a") 1 abortOkEnv).trace = ["R"] ∧
    (handleImportFunds (some "1a") 1 abortOkEnv).outcome =
      .failed (importFailMsg "boom") :=
  ⟨by decide, by norm_num, by decide,
   ((import_abort_policy "1a" 1 abortOkEnv (by decide) (by norm_num)).2.2
      "R" "boom" (by decide)).1,
   ((import_abort_policy "1a" 1 abortOkEnv (by decide) (by norm_num)).2.2
      "R" "boom" (by decide)).2.1 rfl⟩

/-- C1 counterexample: in the concrete run where signing input 0 throws
the message boom after reference R was obtained and the abort call
itself throws the message abort boom, the run ends with the abort
exception escaping: the surfaced result is the abort outcome and the
original failure alert (Import failed: boom) is never shown, refuting
the claim that the orchestrator surfaces the original failure and
reports abort failures alongside it. -/
theorem import_abort_failure_escapes :
    runStatus abortFailEnv "1a" = .threwAfterRef "R" "boom" ∧
    (handleImportFunds (some "1a") 1 abortFailEnv).outcome =
      .crashed "abort boom" ∧
    (handleImportFunds (some "1a") 1 abortFailEnv).outcome ≠
      .failed (importFailMsg "boom") :=
  ⟨by decide, by decide, by decide⟩

end Mountaintops
